import Mathlib

/-!
Shallow embedding of the core state store and trading logic of the
rsi_analyzer_bot repository: the StateManager operations from
src/core/state_manager.py, the paper-trade monitoring tick and the
circuit-breaker scan from src/services/trading_service.py and
src/persistence/database_manager.py, with the constants of src/config.py.

Money, prices, percentages and timestamps are embedded as exact rationals.
Python dictionaries are embedded as association lists in insertion order
(dict assignment on a fresh key appends at the end, assignment on an
existing key updates in place).  Event publication is embedded by returning
the list of published events alongside the new state.  Human readable log
text that no claim depends on is rendered with toString.
-/

namespace RsiBot

open List

/-! ### Constants from src/config.py -/

def RSI_HOT_COIN_THRESHOLD : ℚ := 10

def RSI_ALERT_THRESHOLD : ℚ := 95

def MAX_OPEN_TRADES : Nat := 10

def LEVERAGE : ℚ := 2

def TRADE_CLOSE_RSI : ℚ := 65

def LOSS_TRADES_LIMIT_24H : Nat := 1

def TRADE_AMOUNT_TYPE : String := "fixed_usdt"

def TRADE_AMOUNT_FIXED_USDT : ℚ := 3

def TRADE_AMOUNT_PERCENTAGE : ℚ := 10

def TAKE_PROFIT_PERCENT : ℚ := 10

def DEFAULT_COOLDOWN_PERIOD : ℚ := 172800

def MAX_COINS_TO_MONITOR : Nat := 100

/-! ### Data model -/

/-- Trade source tag, the Source field of an active trade. -/
inductive Source where
  | Bot
  | Live
  | Manual
deriving DecidableEq, Repr

/-- One entry of the coin_data dictionary (symbol key duplicated inside
the value, exactly as update_market_data stores it). -/
structure Coin where
  symbol : String
  price : ℚ
  change_24h : ℚ
deriving DecidableEq, Repr

/-- One active trade record, as built by StateManager.open_trade.
A non numeric rsi value (a sentinel string in the source) is embedded
as none. -/
structure Trade where
  alert_num : Nat
  entry_price : ℚ
  entry_time : ℚ
  entry_rsi : Option ℚ
  trade_amount : ℚ
  leverage : ℚ
  pnl_percent : ℚ
  pnl_usdt : ℚ
  source : Source
  max_neg_pnl_pct : ℚ
  max_neg_pnl_usdt : ℚ
  max_neg_rsi : ℚ
deriving DecidableEq, Repr

/-- One entry of the cooldowned_coins dictionary. -/
structure Cooldown where
  reason : String
  end_time : ℚ
deriving DecidableEq, Repr

/-- One entry of the alert log ring. -/
structure AlertEntry where
  time : ℚ
  symbol : String
  message : String
deriving DecidableEq, Repr

/-- Events published on the event bus by the embedded operations. -/
inductive Event where
  | tradeOpened (trade : Trade)
  | tradeClosed (trade : Trade) (reason : String) (closePrice : ℚ)
      (exitRsi : ℚ) (newBalance : ℚ)
  | statsUpdated
  | portfolioUpdated
  | addToCooldown (symbol : String) (reason : String) (endTime : ℚ)
  | globalPauseTriggered (lossCount : Nat)
  | globalPauseLifted
deriving DecidableEq, Repr

/-- The mutable state of StateManager (the fields the verified operations
touch; threading events become plain booleans). -/
structure StateManager where
  coin_data : List Coin
  rsi_data : List (String × Option ℚ)
  active_trades : List (String × Trade)
  cooldowned_coins : List (String × Cooldown)
  balance : ℚ
  global_profit_usdt : ℚ
  global_loss_usdt : ℚ
  profitable_trades : Nat
  loss_trades : Nat
  global_pause_active : Bool
  trade_execution_enabled : Bool
  alert_log : List AlertEntry
  last_trade_execution_time : ℚ
deriving DecidableEq, Repr

/-- Dictionary lookup in active_trades. -/
def lookupTrade (st : StateManager) (symbol : String) : Option Trade :=
  (st.active_trades.find? (fun p => p.1 == symbol)).map Prod.snd

/-- Dictionary lookup in cooldowned_coins. -/
def lookupCooldown (st : StateManager) (symbol : String) : Option Cooldown :=
  (st.cooldowned_coins.find? (fun p => p.1 == symbol)).map Prod.snd

/-- Dictionary lookup in coin_data. -/
def lookupCoin (st : StateManager) (symbol : String) : Option Coin :=
  st.coin_data.find? (fun c => c.symbol == symbol)

/-- Lookup of the latest rsi sample for a symbol; the outer none means the
symbol was never sampled, an inner none is a non numeric sentinel. -/
def lookupRsi (st : StateManager) (symbol : String) : Option ℚ :=
  (((st.rsi_data.find? (fun p => p.1 == symbol)).map Prod.snd).getD none)

/-! ### StateManager operations from src/core/state_manager.py -/

/-- StateManager.add_alert_log: prepend an entry, keep the newest 50. -/
def add_alert_log (st : StateManager) (now : ℚ) (symbol message : String) :
    StateManager :=
  { st with alert_log := (⟨now, symbol, message⟩ :: st.alert_log).take 50 }

/-- Amount resolution at the top of StateManager.open_trade: an explicit
amount wins; otherwise the percentage-of-balance or fixed-USDT policy of
config.TRADE_AMOUNT_TYPE applies. -/
def resolveTradeAmount (st : StateManager) (trade_amount : Option ℚ) : ℚ :=
  match trade_amount with
  | some a => a
  | none =>
    if TRADE_AMOUNT_TYPE = "percentage" then
      st.balance * TRADE_AMOUNT_PERCENTAGE / 100
    else
      TRADE_AMOUNT_FIXED_USDT

/-- Log text for an rsi value, standing in for the formatted value or the
sentinel string of the source. -/
def rsiLogText (rsi_value : Option ℚ) : String :=
  match rsi_value with
  | some v => toString v
  | none => "Cant_Fetch"

/-- Fresh trade record built inside StateManager.open_trade: zero running
pnl, leverage from config, rsi watermark seeded with the entry rsi when
numeric and 0 otherwise. -/
def openedTrade (price : ℚ) (rsi_value : Option ℚ) (amt : ℚ)
    (source : Source) (alert_number : Nat) (now : ℚ) : Trade :=
  { alert_num := alert_number, entry_price := price, entry_time := now,
    entry_rsi := rsi_value, trade_amount := amt, leverage := LEVERAGE,
    pnl_percent := 0, pnl_usdt := 0, source := source,
    max_neg_pnl_pct := 0, max_neg_pnl_usdt := 0,
    max_neg_rsi := rsi_value.getD 0 }

/-- StateManager.open_trade.  Returns the new state, the boolean result and
the published events. -/
def open_trade (st : StateManager) (symbol : String) (price : ℚ)
    (rsi_value : Option ℚ) (source : Source) (alert_number : Nat)
    (log_message : Option String) (trade_amount : Option ℚ) (now : ℚ) :
    StateManager × Bool × List Event :=
  if (st.active_trades.find? (fun p => p.1 == symbol)).isSome then
    (st, false, [])
  else
    let amt := resolveTradeAmount st trade_amount
    if source ≠ Source.Live ∧ st.balance < amt then
      (add_alert_log st now ("SKIP: " ++ symbol) "Insufficient Funds",
       false, [])
    else
      let tr : Trade := openedTrade price rsi_value amt source alert_number now
      let st1 : StateManager :=
        { st with active_trades := st.active_trades ++ [(symbol, tr)],
                  last_trade_execution_time := now }
      (add_alert_log st1 now ("OPEN SHORT: " ++ symbol)
        (log_message.getD (rsiLogText rsi_value)),
       true, [Event.tradeOpened tr])

/-- StateManager.close_trade.  Returns the new state and the published
events, in publication order. -/
def close_trade (st : StateManager) (symbol : String) (reason : String)
    (close_price : ℚ) (exit_rsi : ℚ) (now : ℚ) :
    StateManager × List Event :=
  match (st.active_trades.find? (fun p => p.1 == symbol)).map Prod.snd with
  | none => (st, [])
  | some tr =>
    let remaining := st.active_trades.filter (fun p => p.1 != symbol)
    let st1 : StateManager := { st with active_trades := remaining }
    let st2 : StateManager :=
      if tr.source ≠ Source.Live then
        let stb := { st1 with balance := st1.balance + tr.pnl_usdt }
        if 0 ≤ tr.pnl_usdt then
          { stb with
            global_profit_usdt := stb.global_profit_usdt + tr.pnl_usdt,
            profitable_trades := stb.profitable_trades + 1 }
        else
          { stb with
            global_loss_usdt := stb.global_loss_usdt + |tr.pnl_usdt|,
            loss_trades := stb.loss_trades + 1 }
      else st1
    let cooldown_end := now + DEFAULT_COOLDOWN_PERIOD
    let st3 := add_alert_log st2 now ("CLOSE SHORT: " ++ symbol) reason
    (st3,
     [Event.addToCooldown symbol reason cooldown_end,
      Event.tradeClosed tr reason close_price exit_rsi st3.balance,
      Event.statsUpdated, Event.portfolioUpdated])

/-- Per trade transformation applied by StateManager.update_trade_pnl:
the running pnl fields are overwritten; the three worst-excursion
watermarks are lowered only when the supplied rsi value is numeric. -/
def applyPnl (pnl_percent pnl_usdt : ℚ) (current_rsi : Option ℚ)
    (tr : Trade) : Trade :=
  let tr1 := { tr with pnl_percent := pnl_percent, pnl_usdt := pnl_usdt }
  match current_rsi with
  | some r =>
    { tr1 with
      max_neg_pnl_pct :=
        if pnl_percent < tr1.max_neg_pnl_pct then pnl_percent
        else tr1.max_neg_pnl_pct,
      max_neg_pnl_usdt :=
        if pnl_usdt < tr1.max_neg_pnl_usdt then pnl_usdt
        else tr1.max_neg_pnl_usdt,
      max_neg_rsi :=
        if r < tr1.max_neg_rsi then r else tr1.max_neg_rsi }
  | none => tr1

/-- StateManager.update_trade_pnl: mutate the entry of the given symbol in
place, leave every other trade untouched; a no-op when the symbol is not
an active trade. -/
def update_trade_pnl (st : StateManager) (symbol : String)
    (pnl_percent pnl_usdt : ℚ) (current_rsi : Option ℚ) : StateManager :=
  { st with active_trades := st.active_trades.map (fun p =>
      if p.1 == symbol then (p.1, applyPnl pnl_percent pnl_usdt current_rsi p.2)
      else p) }

/-- StateManager.can_open_new_trade. -/
def can_open_new_trade (st : StateManager) (now : ℚ) : Bool :=
  st.trade_execution_enabled &&
  !st.global_pause_active &&
  decide (st.active_trades.length < MAX_OPEN_TRADES) &&
  decide (10 < now - st.last_trade_execution_time)

/-- StateManager.activate_global_pause.  The threading.Timer that schedules
the automatic lift is an external side effect and is not part of the
state. -/
def activate_global_pause (st : StateManager) (loss_count : Nat) :
    StateManager × List Event :=
  if st.global_pause_active then (st, [])
  else
    ({ st with global_pause_active := true, trade_execution_enabled := false },
     [Event.globalPauseTriggered loss_count])

/-- StateManager.lift_global_pause. -/
def lift_global_pause (st : StateManager) : StateManager × List Event :=
  if st.global_pause_active then
    ({ st with global_pause_active := false }, [Event.globalPauseLifted])
  else (st, [])

/-! ### get_symbols_to_monitor from src/core/state_manager.py -/

/-- Descending order on the 24h change of a coin, the sort key of
get_symbols_to_monitor (Python sorted with reverse=True is stable, as is
insertion sort). -/
def coinDesc : Coin → Coin → Prop := fun a b => b.change_24h ≤ a.change_24h

instance : DecidableRel coinDesc := fun a b =>
  inferInstanceAs (Decidable (b.change_24h ≤ a.change_24h))

/-- Change lookup used by the final sort of get_symbols_to_monitor, with
default 0 for a symbol absent from coin_data. -/
def changeOfSymbol (st : StateManager) (s : String) : ℚ :=
  ((lookupCoin st s).map Coin.change_24h).getD 0

/-- Descending order on the looked up 24h change of a symbol. -/
def symDesc (st : StateManager) : String → String → Prop :=
  fun a b => changeOfSymbol st b ≤ changeOfSymbol st a

instance (st : StateManager) : DecidableRel (symDesc st) := fun a b =>
  inferInstanceAs (Decidable (changeOfSymbol st b ≤ changeOfSymbol st a))

/-- All coins sorted by 24h change descending. -/
def sortedCoins (st : StateManager) : List Coin :=
  List.insertionSort coinDesc st.coin_data

/-- Coins at or above the base hot threshold, in descending change order. -/
def hotCoinsAboveBase (st : StateManager) : List Coin :=
  (sortedCoins st).filter (fun c => decide (RSI_HOT_COIN_THRESHOLD ≤ c.change_24h))

/-- The dynamic threshold: raised to the change of the coin ranked
MAX_COINS_TO_MONITOR when more than that many coins qualify. -/
def dynamicThreshold (st : StateManager) : ℚ :=
  if MAX_COINS_TO_MONITOR < (hotCoinsAboveBase st).length then
    (((hotCoinsAboveBase st)[MAX_COINS_TO_MONITOR - 1]?).map
      Coin.change_24h).getD RSI_HOT_COIN_THRESHOLD
  else RSI_HOT_COIN_THRESHOLD

/-- Symbols of the hot coins at or above the dynamic threshold. -/
def finalHotSymbols (st : StateManager) : List String :=
  ((hotCoinsAboveBase st).filter
    (fun c => decide (dynamicThreshold st ≤ c.change_24h))).map Coin.symbol

/-- StateManager.get_symbols_to_monitor: hot symbols unioned with open and
cooldowned symbols, deduplicated, sorted by 24h change descending.  The
iteration order of the Python set is unspecified; dedup fixes one order,
and no theorem below depends on the order among equal sort keys. -/
def get_symbols_to_monitor (st : StateManager) : List String :=
  List.insertionSort (symDesc st)
    ((st.active_trades.map Prod.fst ++ st.cooldowned_coins.map Prod.fst ++
      finalHotSymbols st).dedup)

/-! ### Paper trade monitoring from src/services/trading_service.py -/

/-- TradingService._monitor_paper_trade.  The trade argument is the record
snapshot the sweep passes in; price and rsi are read from the state.  The
falsy test of the source (if not current_price) drops both a missing and a
zero price. -/
def monitor_paper_trade (st : StateManager) (symbol : String) (trade : Trade)
    (now : ℚ) : StateManager × List Event :=
  let current_rsi := lookupRsi st symbol
  match (lookupCoin st symbol).map Coin.price with
  | none => (st, [])
  | some cp =>
    if cp = 0 then (st, [])
    else
      let price_change_percent := (trade.entry_price - cp) / trade.entry_price * 100
      let pnl_percent := price_change_percent * trade.leverage
      let pnl_usdt := trade.trade_amount * trade.leverage * (price_change_percent / 100)
      let st1 := update_trade_pnl st symbol pnl_percent pnl_usdt current_rsi
      if st1.global_pause_active then (st1, [])
      else if TAKE_PROFIT_PERCENT ≤ pnl_percent then
        close_trade st1 symbol "Target Profit (>10%)" cp (current_rsi.getD 0) now
      else
        match current_rsi with
        | some r =>
          if r ≤ TRADE_CLOSE_RSI ∧ 0 < pnl_usdt then
            close_trade st1 symbol "RSI Close (<65)" cp r now
          else (st1, [])
        | none => (st1, [])

/-! ### Circuit breaker scan from src/persistence/database_manager.py -/

/-- One row of the trades table as the breaker scan reads it: a parsed
timestamp (none when parsing failed, pandas NaT) and a numeric pnl (none
when coercion failed, pandas NaN). -/
structure DbTradeRow where
  timestamp : Option ℚ
  pnl_usdt : Option ℚ
deriving DecidableEq, Repr

/-- Membership in the trailing 24 hour window; a NaT timestamp never
compares greater and so is dropped. -/
def isRecent (now : ℚ) (row : DbTradeRow) : Bool :=
  match row.timestamp with
  | some t => decide (now - 86400 < t)
  | none => false

/-- Loss test of the scan; a NaN pnl never compares below zero and so is
dropped. -/
def isLossRow (row : DbTradeRow) : Bool :=
  match row.pnl_usdt with
  | some v => decide (v < 0)
  | none => false

/-- Number of losing trades inside the trailing window. -/
def recentLossCount (rows : List DbTradeRow) (now : ℚ) : Nat :=
  ((rows.filter (isRecent now)).filter isLossRow).length

/-- The read at the top of DatabaseManager.check_for_global_pause:
_read_db_to_df has signature (query, db_path=None) with query required, but
the scan calls it with no arguments, so Python raises TypeError before any
database access happens.  Embedded as the error value none. -/
def read_db_to_df_no_arg : Option (List DbTradeRow) := none

/-- Body of the scan as written after the read (dead code in the source,
reachable only if the read returned): count recent losing trades and trip
the breaker with that count when it reaches the configured limit. -/
def check_for_global_pause_body (rows : List DbTradeRow) (st : StateManager)
    (now : ℚ) : StateManager × List Event :=
  if rows.isEmpty then (st, [])
  else
    let n := recentLossCount rows now
    if LOSS_TRADES_LIMIT_24H ≤ n then activate_global_pause st n
    else (st, [])

/-- DatabaseManager.check_for_global_pause: the first statement raises
TypeError (missing query argument) and the blanket except swallows it with
a printed message, so the scan returns with no state change and no event;
the body runs only in the impossible case of a successful read. -/
def check_for_global_pause (st : StateManager) (now : ℚ) :
    StateManager × List Event :=
  match read_db_to_df_no_arg with
  | none => (st, [])
  | some rows => check_for_global_pause_body rows st now

/-! ### Cooldown upsert from src/persistence/database_manager.py -/

/-- DatabaseManager.handle_add_to_cooldown, the in-memory part: upsert of
the cooldowned_coins dictionary (the durable upsert is external). -/
def handle_add_to_cooldown (st : StateManager) (symbol reason : String)
    (end_time : ℚ) : StateManager :=
  { st with cooldowned_coins :=
      if (st.cooldowned_coins.find? (fun p => p.1 == symbol)).isSome then
        st.cooldowned_coins.map (fun p =>
          if p.1 == symbol then (p.1, ⟨reason, end_time⟩) else p)
      else
        st.cooldowned_coins ++ [(symbol, ⟨reason, end_time⟩)] }

/-! ### Shared helper lemmas -/

/-- Updating the entry of one key by mapping over an association list
commutes with lookup of that key. -/
theorem find?_map_key_update {β : Type} (l : List (String × β)) (s : String)
    (f : β → β) :
    (l.map (fun p => if p.1 == s then (p.1, f p.2) else p)).find?
        (fun p => p.1 == s)
      = (l.find? (fun p => p.1 == s)).map (fun p => (p.1, f p.2)) := by
  induction l with
  | nil => rfl
  | cons a l ih =>
    simp only [List.map_cons, List.find?_cons]
    by_cases h : a.1 == s
    · simp [h]
    · have hu : (if (a.1 == s) = true then (a.1, f a.2) else a) = a := if_neg h
      have hf : (a.1 == s) = false := by simpa using h
      rw [hu, hf]
      exact ih

/-- Updating the entry of one key by mapping over an association list
leaves the key list unchanged. -/
theorem keys_map_key_update (l : List (String × Trade)) (s : String)
    (f : Trade → Trade) :
    (l.map (fun p => if p.1 == s then (p.1, f p.2) else p)).map Prod.fst
      = l.map Prod.fst := by
  induction l with
  | nil => rfl
  | cons a l ih =>
    simp only [List.map_cons, ih]
    by_cases h : a.1 == s <;> simp [h]

/-- A base concrete state used by the concrete witnesses below: empty
stores, a 100 USDT balance, trade execution armed, no pause. -/
def baseState : StateManager :=
  { coin_data := [], rsi_data := [], active_trades := [],
    cooldowned_coins := [], balance := 100, global_profit_usdt := 0,
    global_loss_usdt := 0, profitable_trades := 0, loss_trades := 0,
    global_pause_active := false, trade_execution_enabled := true,
    alert_log := [], last_trade_execution_time := 0 }

/-! ### Claim C9 -/

/-- Claim C9: activate_global_pause and lift_global_pause are idempotent (a
second consecutive call of either changes nothing and publishes no event);
tripping the breaker sets the pause flag and clears
trade_execution_enabled; lifting clears only the pause flag and leaves
trade_execution_enabled unchanged, so after a trip followed by a lift the
trade execution flag is still cleared. -/
theorem C9_pause_idempotent_and_coupling (st : StateManager) (lc lc2 : Nat) :
    activate_global_pause (activate_global_pause st lc).1 lc2
        = ((activate_global_pause st lc).1, []) ∧
    lift_global_pause (lift_global_pause st).1
        = ((lift_global_pause st).1, []) ∧
    (st.global_pause_active = false →
      (activate_global_pause st lc).1.global_pause_active = true ∧
      (activate_global_pause st lc).1.trade_execution_enabled = false) ∧
    (lift_global_pause st).1.trade_execution_enabled
        = st.trade_execution_enabled ∧
    (lift_global_pause st).1.global_pause_active = false ∧
    (st.global_pause_active = false →
      (lift_global_pause (activate_global_pause st lc).1).1.global_pause_active
          = false ∧
      (lift_global_pause (activate_global_pause st lc).1).1.trade_execution_enabled
          = false) := by
  by_cases h : st.global_pause_active <;>
    simp [activate_global_pause, lift_global_pause, h]

/-- Witness for C9 at a concrete state. -/
theorem C9_pause_idempotent_and_coupling_witness :
    baseState.global_pause_active = false ∧
    (lift_global_pause (activate_global_pause baseState 3).1).1.global_pause_active
        = false ∧
    (lift_global_pause (activate_global_pause baseState 3).1).1.trade_execution_enabled
        = false :=
  ⟨rfl, (C9_pause_idempotent_and_coupling baseState 3 0).2.2.2.2.2 rfl⟩

/-! ### Claim C10 -/

/-- Claim C10: closing a non-Live trade whose running pnl_usdt is exactly 0
counts it as a win: the profitable-trade counter is incremented, zero is
added to cumulative realized profit, and the loss counter and cumulative
realized loss are untouched (as is the balance, increased by zero). -/
theorem C10_zero_pnl_counts_as_win (st : StateManager) (symbol : String)
    (tr : Trade) (reason : String) (cp er now : ℚ)
    (htr : lookupTrade st symbol = some tr)
    (hsrc : tr.source ≠ Source.Live)
    (hpnl : tr.pnl_usdt = 0) :
    (close_trade st symbol reason cp er now).1.profitable_trades
        = st.profitable_trades + 1 ∧
    (close_trade st symbol reason cp er now).1.loss_trades = st.loss_trades ∧
    (close_trade st symbol reason cp er now).1.global_profit_usdt
        = st.global_profit_usdt ∧
    (close_trade st symbol reason cp er now).1.global_loss_usdt
        = st.global_loss_usdt ∧
    (close_trade st symbol reason cp er now).1.balance = st.balance := by
  rw [lookupTrade] at htr
  simp only [close_trade, htr]
  simp [add_alert_log, hsrc, hpnl]

/-- Witness trade for the concrete instantiations below: a paper trade
with zero running pnl. -/
def zeroPnlTrade : Trade :=
  { alert_num := 1, entry_price := 100, entry_time := 0,
    entry_rsi := some 96, trade_amount := 3, leverage := 2,
    pnl_percent := 0, pnl_usdt := 0, source := Source.Bot,
    max_neg_pnl_pct := 0, max_neg_pnl_usdt := 0, max_neg_rsi := 96 }

/-- Witness for C10 at a concrete state holding one zero-pnl paper
trade. -/
theorem C10_zero_pnl_counts_as_win_witness :
    (close_trade { baseState with active_trades := [("AUSDT", zeroPnlTrade)] }
        "AUSDT" "Target Profit (>10%)" 100 96 7).1.profitable_trades
      = 0 + 1 :=
  (C10_zero_pnl_counts_as_win
    { baseState with active_trades := [("AUSDT", zeroPnlTrade)] }
    "AUSDT" zeroPnlTrade "Target Profit (>10%)" 100 96 7
    rfl (by decide) rfl).1

/-- The running-minimum conditional of update_trade_pnl is the lattice
minimum. -/
theorem ite_lt_eq_min (a b : ℚ) : (if b < a then b else a) = min a b := by
  split
  · exact (min_eq_right (le_of_lt (by assumption))).symm
  · exact (min_eq_left (not_lt.mp (by assumption))).symm

/-! ### Claim C8 -/

/-- Counterexample to claim C8 as stated: a call to update_trade_pnl with a
non numeric indicator value (None, as passed by the live position sync)
overwrites the pnl fields but freezes the watermarks, so the watermark
after the call is 0 and not min(0, -5) = -5. -/
theorem C8_counterexample :
    (lookupTrade (update_trade_pnl
        { baseState with active_trades := [("AUSDT", zeroPnlTrade)] }
        "AUSDT" (-5) (-1) none) "AUSDT").map Trade.max_neg_pnl_pct
      = some 0 ∧
    min zeroPnlTrade.max_neg_pnl_pct (-5 : ℚ) = -5 ∧
    (0 : ℚ) ≠ -5 := by
  refine ⟨rfl, ?_, by norm_num⟩
  rw [show zeroPnlTrade.max_neg_pnl_pct = 0 from rfl, min_eq_right]
  norm_num

/-- Claim C8 (amended): update_trade_pnl always overwrites the running pnl
fields with the supplied values; when the supplied indicator value is
numeric each of the three worst-excursion watermarks becomes the minimum of
its previous value and the supplied value, when it is non numeric the
watermarks are left unchanged; in both cases no watermark ever
increases. -/
theorem C8_update_pnl_watermarks (st : StateManager) (symbol : String)
    (tr : Trade) (pnlPct pnlUsdt : ℚ) (rsi : Option ℚ)
    (htr : lookupTrade st symbol = some tr) :
    lookupTrade (update_trade_pnl st symbol pnlPct pnlUsdt rsi) symbol
      = some (applyPnl pnlPct pnlUsdt rsi tr) ∧
    (applyPnl pnlPct pnlUsdt rsi tr).pnl_percent = pnlPct ∧
    (applyPnl pnlPct pnlUsdt rsi tr).pnl_usdt = pnlUsdt ∧
    (∀ r, rsi = some r →
      (applyPnl pnlPct pnlUsdt rsi tr).max_neg_pnl_pct
          = min tr.max_neg_pnl_pct pnlPct ∧
      (applyPnl pnlPct pnlUsdt rsi tr).max_neg_pnl_usdt
          = min tr.max_neg_pnl_usdt pnlUsdt ∧
      (applyPnl pnlPct pnlUsdt rsi tr).max_neg_rsi
          = min tr.max_neg_rsi r) ∧
    (rsi = none →
      (applyPnl pnlPct pnlUsdt rsi tr).max_neg_pnl_pct = tr.max_neg_pnl_pct ∧
      (applyPnl pnlPct pnlUsdt rsi tr).max_neg_pnl_usdt = tr.max_neg_pnl_usdt ∧
      (applyPnl pnlPct pnlUsdt rsi tr).max_neg_rsi = tr.max_neg_rsi) ∧
    (applyPnl pnlPct pnlUsdt rsi tr).max_neg_pnl_pct ≤ tr.max_neg_pnl_pct ∧
    (applyPnl pnlPct pnlUsdt rsi tr).max_neg_pnl_usdt ≤ tr.max_neg_pnl_usdt ∧
    (applyPnl pnlPct pnlUsdt rsi tr).max_neg_rsi ≤ tr.max_neg_rsi := by
  obtain ⟨p0, hp0, hp0tr⟩ := Option.map_eq_some'.mp htr
  refine ⟨?_, ?_⟩
  · rw [lookupTrade]
    simp only [update_trade_pnl, find?_map_key_update, hp0]
    simp [hp0tr]
  · cases rsi with
    | none => simp [applyPnl]
    | some r =>
      refine ⟨rfl, rfl, ?_, ?_, ?_, ?_, ?_⟩
      · intro r2 hr2
        obtain rfl : r = r2 := by injection hr2
        simp [applyPnl, ite_lt_eq_min]
      · intro h; cases h
      · simp only [applyPnl, ite_lt_eq_min]; exact min_le_left _ _
      · simp only [applyPnl, ite_lt_eq_min]; exact min_le_left _ _
      · simp only [applyPnl, ite_lt_eq_min]; exact min_le_left _ _

/-- Witness for C8 (amended) at a concrete state: a numeric indicator call
lowers the pnl-percent watermark to the minimum. -/
theorem C8_update_pnl_watermarks_witness :
    (applyPnl (-5) (-1) (some 40) zeroPnlTrade).max_neg_pnl_pct
      = min zeroPnlTrade.max_neg_pnl_pct (-5) :=
  ((C8_update_pnl_watermarks
      { baseState with active_trades := [("AUSDT", zeroPnlTrade)] }
      "AUSDT" zeroPnlTrade (-5) (-1) (some 40) rfl).2.2.2.1 40 rfl).1

/-! ### Claim C7 -/

/-- Claim C7: while the global pause flag is set, a paper monitoring tick
never closes the trade and publishes nothing: the whole tick is exactly the
update_trade_pnl write of the recomputed pnl, and the set of active trade
symbols is unchanged. -/
theorem C7_pause_suppresses_exits (st : StateManager) (symbol : String)
    (trade : Trade) (now cp : ℚ)
    (hpause : st.global_pause_active = true)
    (hprice : (lookupCoin st symbol).map Coin.price = some cp)
    (hcp : cp ≠ 0) :
    monitor_paper_trade st symbol trade now
      = (update_trade_pnl st symbol
          ((trade.entry_price - cp) / trade.entry_price * 100 * trade.leverage)
          (trade.trade_amount * trade.leverage *
            ((trade.entry_price - cp) / trade.entry_price * 100 / 100))
          (lookupRsi st symbol), []) ∧
    (monitor_paper_trade st symbol trade now).1.active_trades.map Prod.fst
      = st.active_trades.map Prod.fst := by
  have hmain : monitor_paper_trade st symbol trade now
      = (update_trade_pnl st symbol
          ((trade.entry_price - cp) / trade.entry_price * 100 * trade.leverage)
          (trade.trade_amount * trade.leverage *
            ((trade.entry_price - cp) / trade.entry_price * 100 / 100))
          (lookupRsi st symbol), []) := by
    simp only [monitor_paper_trade, hprice]
    rw [if_neg hcp]
    simp [update_trade_pnl, hpause]
  refine ⟨hmain, ?_⟩
  rw [hmain]
  simp only [update_trade_pnl]
  exact keys_map_key_update st.active_trades symbol _

/-- Concrete paused state used by the C7 witness: one open paper trade on
AUSDT, a known price of 90, the breaker tripped. -/
def pausedTickState : StateManager :=
  { baseState with
    global_pause_active := true,
    active_trades := [("AUSDT", zeroPnlTrade)],
    coin_data := [⟨"AUSDT", 90, 50⟩] }

/-- Witness for C7 at a concrete state. -/
theorem C7_pause_suppresses_exits_witness :
    (monitor_paper_trade pausedTickState "AUSDT" zeroPnlTrade 5).1.active_trades.map
        Prod.fst
      = pausedTickState.active_trades.map Prod.fst :=
  (C7_pause_suppresses_exits pausedTickState "AUSDT" zeroPnlTrade 5 90 rfl rfl
    (by norm_num)).2

/-- Effect of a successful open_trade: the new trade record is appended and
the last-open time is stamped. -/
theorem open_trade_success_effects (st : StateManager) (symbol : String)
    (price : ℚ) (rsi_value : Option ℚ) (source : Source) (alert_number : Nat)
    (log_message : Option String) (trade_amount : Option ℚ) (now : ℚ)
    (h : (open_trade st symbol price rsi_value source alert_number log_message
            trade_amount now).2.1 = true) :
    (open_trade st symbol price rsi_value source alert_number log_message
        trade_amount now).1.active_trades
      = st.active_trades ++ [(symbol, openedTrade price rsi_value
          (resolveTradeAmount st trade_amount) source alert_number now)] ∧
    (open_trade st symbol price rsi_value source alert_number log_message
        trade_amount now).1.last_trade_execution_time = now := by
  simp only [open_trade] at h ⊢
  split at h
  next hdup => exact Bool.noConfusion h
  next hdup =>
    split at h
    next hins => exact Bool.noConfusion h
    next hins =>
      rw [if_neg hdup, if_neg hins]
      simp [add_alert_log]

/-! ### Claim C4 -/

/-- Counterexample to claim C4 as stated: with trade execution enabled, no
pause, zero open trades and exactly 10 seconds elapsed since the last open,
the claim requires can_open_new_trade to be true, but the source compares
with a strict greater-than and returns false. -/
theorem C4_counterexample :
    can_open_new_trade baseState 10 = false ∧
    baseState.trade_execution_enabled = true ∧
    baseState.global_pause_active = false ∧
    baseState.active_trades.length < MAX_OPEN_TRADES ∧
    (10 : ℚ) - baseState.last_trade_execution_time ≥ 10 := by
  refine ⟨?_, rfl, rfl, by decide, by norm_num [baseState]⟩
  simp [can_open_new_trade, baseState]

/-- Claim C4 (amended): can_open_new_trade is true iff trade execution is
enabled, no global pause is active, the open-trade count is strictly below
MAX_OPEN_TRADES and strictly more than 10 seconds have elapsed since the
last successful open; it is false immediately after any successful
open_trade, which stamps the last-open time. -/
theorem C4_can_open_new_trade_iff (st : StateManager) (now : ℚ) :
    (can_open_new_trade st now = true ↔
      st.trade_execution_enabled = true ∧ st.global_pause_active = false ∧
      st.active_trades.length < MAX_OPEN_TRADES ∧
      10 < now - st.last_trade_execution_time) ∧
    (∀ symbol price rsi_value source alert_number log_message trade_amount,
      (open_trade st symbol price rsi_value source alert_number log_message
          trade_amount now).2.1 = true →
      can_open_new_trade (open_trade st symbol price rsi_value source
          alert_number log_message trade_amount now).1 now = false) := by
  constructor
  · simp [can_open_new_trade, and_assoc]
  · intro symbol price rsi_value source alert_number log_message trade_amount hsucc
    have heff := open_trade_success_effects st symbol price rsi_value source
      alert_number log_message trade_amount now hsucc
    rw [can_open_new_trade, heff.2]
    simp [sub_self]

/-- Witness for C4 (amended) at a concrete state: the gate is open 20
seconds after the last open, and closed immediately after a successful
open. -/
theorem C4_can_open_new_trade_iff_witness :
    can_open_new_trade baseState 20 = true ∧
    can_open_new_trade (open_trade baseState "AUSDT" 100 (some 96) Source.Bot
        1 none (some 3) 20).1 20 = false :=
  ⟨(C4_can_open_new_trade_iff baseState 20).1.mpr
      ⟨rfl, rfl, by decide, by norm_num [baseState]⟩,
   (C4_can_open_new_trade_iff baseState 20).2 "AUSDT" 100 (some 96) Source.Bot
      1 none (some 3) (by decide)⟩

/-! ### Claim C1 -/

/-- Concrete state already holding MAX_OPEN_TRADES active trades. -/
def fullState : StateManager :=
  { baseState with active_trades :=
      [("C0USDT", zeroPnlTrade), ("C1USDT", zeroPnlTrade),
       ("C2USDT", zeroPnlTrade), ("C3USDT", zeroPnlTrade),
       ("C4USDT", zeroPnlTrade), ("C5USDT", zeroPnlTrade),
       ("C6USDT", zeroPnlTrade), ("C7USDT", zeroPnlTrade),
       ("C8USDT", zeroPnlTrade), ("C9USDT", zeroPnlTrade)] }

/-- Counterexample to claim C1 as stated: open_trade itself never checks
MAX_OPEN_TRADES, so called on a state already holding MAX_OPEN_TRADES
trades it still succeeds and leaves MAX_OPEN_TRADES + 1 active trades. -/
theorem C1_counterexample :
    fullState.active_trades.length = MAX_OPEN_TRADES ∧
    (open_trade fullState "NEWUSDT" 100 (some 96) Source.Bot 11 none (some 3)
        0).2.1 = true ∧
    MAX_OPEN_TRADES < (open_trade fullState "NEWUSDT" 100 (some 96) Source.Bot
        11 none (some 3) 0).1.active_trades.length := by
  refine ⟨rfl, by decide, ?_⟩
  have heff := open_trade_success_effects fullState "NEWUSDT" 100 (some 96)
    Source.Bot 11 none (some 3) 0 (by decide)
  rw [heff.1]
  decide

/-- Claim C1 (amended): open_trade enforces no bound itself; a successful
call appends exactly one trade, so the count after equals the count before
plus one and stays at or below MAX_OPEN_TRADES exactly when the count on
entry was strictly below MAX_OPEN_TRADES (the check can_open_new_trade
performs outside the open_trade critical section). -/
theorem C1_open_trade_count (st : StateManager) (symbol : String) (price : ℚ)
    (rsi_value : Option ℚ) (source : Source) (alert_number : Nat)
    (log_message : Option String) (trade_amount : Option ℚ) (now : ℚ)
    (hcount : st.active_trades.length < MAX_OPEN_TRADES)
    (hsucc : (open_trade st symbol price rsi_value source alert_number
        log_message trade_amount now).2.1 = true) :
    (open_trade st symbol price rsi_value source alert_number log_message
        trade_amount now).1.active_trades.length
      = st.active_trades.length + 1 ∧
    (open_trade st symbol price rsi_value source alert_number log_message
        trade_amount now).1.active_trades.length ≤ MAX_OPEN_TRADES := by
  have heff := open_trade_success_effects st symbol price rsi_value source
    alert_number log_message trade_amount now hsucc
  rw [heff.1, List.length_append]
  simp only [List.length_singleton]
  refine ⟨by simp, by omega⟩

/-- Witness for C1 (amended) at a concrete state. -/
theorem C1_open_trade_count_witness :
    (open_trade baseState "AUSDT" 100 (some 96) Source.Bot 1 none (some 3)
        0).1.active_trades.length = baseState.active_trades.length + 1 :=
  (C1_open_trade_count baseState "AUSDT" 100 (some 96) Source.Bot 1 none
    (some 3) 0 (by decide) (by decide)).1

/-! ### Claim C3 -/

/-- Concrete state with a zero balance, below the fixed 3 USDT policy
amount. -/
def brokeState : StateManager := { baseState with balance := 0 }

/-- Counterexample to claim C3 as stated: the insufficient-funds rejection
does mutate the store, prepending a SKIP entry to the alert log before
returning false. -/
theorem C3_counterexample :
    (open_trade brokeState "AUSDT" 100 (some 96) Source.Bot 1 none none
        0).2.1 = false ∧
    (open_trade brokeState "AUSDT" 100 (some 96) Source.Bot 1 none none
        0).1.alert_log ≠ brokeState.alert_log := by
  decide

/-- Claim C3 (amended): open_trade returns false in exactly two cases: the
symbol is already an active trade, or the source is non-Live and the
balance is below the resolved trade amount.  The duplicate case leaves the
state entirely unchanged and publishes nothing; the insufficient-funds case
publishes nothing and changes nothing except prepending one SKIP entry to
the alert log. -/
theorem C3_open_trade_failure_characterization (st : StateManager)
    (symbol : String) (price : ℚ) (rsi_value : Option ℚ) (source : Source)
    (alert_number : Nat) (log_message : Option String)
    (trade_amount : Option ℚ) (now : ℚ) :
    ((open_trade st symbol price rsi_value source alert_number log_message
        trade_amount now).2.1 = false ↔
      ((st.active_trades.find? (fun p => p.1 == symbol)).isSome = true ∨
       (source ≠ Source.Live ∧
         st.balance < resolveTradeAmount st trade_amount))) ∧
    ((st.active_trades.find? (fun p => p.1 == symbol)).isSome = true →
      open_trade st symbol price rsi_value source alert_number log_message
          trade_amount now = (st, false, [])) ∧
    ((st.active_trades.find? (fun p => p.1 == symbol)).isSome = false →
      source ≠ Source.Live → st.balance < resolveTradeAmount st trade_amount →
      open_trade st symbol price rsi_value source alert_number log_message
          trade_amount now
        = (add_alert_log st now ("SKIP: " ++ symbol) "Insufficient Funds",
           false, [])) := by
  refine ⟨?_, ?_, ?_⟩
  · simp only [open_trade]
    split
    next hdup => simp [hdup]
    next hdup =>
      split
      next hins => simp [hdup, hins]
      next hins => simp [hdup, hins]
  · intro hdup
    simp [open_trade, hdup]
  · intro hdup hsrc hbal
    have hd2 : ¬((st.active_trades.find? (fun p => p.1 == symbol)).isSome
        = true) := by simp [hdup]
    simp only [open_trade]
    rw [if_neg hd2, if_pos ⟨hsrc, hbal⟩]

/-- Witness for C3 (amended): the duplicate-symbol rejection at a concrete
state is a complete no-op. -/
theorem C3_open_trade_failure_characterization_witness :
    open_trade { baseState with active_trades := [("AUSDT", zeroPnlTrade)] }
        "AUSDT" 100 (some 96) Source.Bot 2 none none 0
      = ({ baseState with active_trades := [("AUSDT", zeroPnlTrade)] },
         false, []) :=
  (C3_open_trade_failure_characterization
    { baseState with active_trades := [("AUSDT", zeroPnlTrade)] }
    "AUSDT" 100 (some 96) Source.Bot 2 none none 0).2.1 (by decide)

/-! ### Claim C2 -/

/-- One losing database row inside the trailing window used below. -/
def lossRow : DbTradeRow := ⟨some 1000, some (-2)⟩

/-- Claim C2: the claimed breaker trip cannot happen.  The first statement
of DatabaseManager.check_for_global_pause omits the required query argument
of _read_db_to_df, raising TypeError, which the blanket except swallows:
for every state and time the scan returns with no state change and no
event, so the pause flag is never set and trade execution is never cleared
by the scan.  On the claimed input itself (three losing rows inside the
trailing 24 hour window, limit 1) the scan body as written, were it ever
reached, would have counted 3 losses, tripped the breaker, and published
one pause-triggered event with lossCount 3 (the number of losing trades
found), not 1 as the claim states. -/
theorem C2_scan_typeerror_never_trips (st : StateManager) (now : ℚ) :
    check_for_global_pause st now = (st, []) ∧
    recentLossCount [lossRow, lossRow, lossRow] 2000 = 3 ∧
    (check_for_global_pause_body [lossRow, lossRow, lossRow] baseState
        2000).1.global_pause_active = true ∧
    (check_for_global_pause_body [lossRow, lossRow, lossRow] baseState
        2000).1.trade_execution_enabled = false ∧
    (check_for_global_pause_body [lossRow, lossRow, lossRow] baseState
        2000).2 = [Event.globalPauseTriggered 3] := by
  have hrec : isRecent 2000 lossRow = true := by
    simp [isRecent, lossRow]
    norm_num
  have hloss : isLossRow lossRow = true := by
    simp [isLossRow, lossRow]
  have hcnt : recentLossCount [lossRow, lossRow, lossRow] 2000 = 3 := by
    simp [recentLossCount, hrec, hloss]
  refine ⟨rfl, hcnt, ?_, ?_, ?_⟩ <;>
    simp [check_for_global_pause_body, hcnt, activate_global_pause,
      baseState, LOSS_TRADES_LIMIT_24H]

/-! ### Helper lemmas for the round trip -/

/-- Removing a key by filtering makes lookup of that key fail. -/
theorem find?_filter_ne_none {β : Type} (l : List (String × β)) (s : String) :
    (l.filter (fun p => p.1 != s)).find? (fun p => p.1 == s) = none := by
  apply List.find?_eq_none.mpr
  intro x hx
  have hne := (List.mem_filter.mp hx).2
  simpa using hne

/-- The pnl-usdt field is overwritten unconditionally by applyPnl. -/
theorem applyPnl_pnl_usdt (pp pu : ℚ) (cr : Option ℚ) (tr : Trade) :
    (applyPnl pp pu cr tr).pnl_usdt = pu := by
  cases cr <;> rfl

/-- The pnl-percent field is overwritten unconditionally by applyPnl. -/
theorem applyPnl_pnl_percent (pp pu : ℚ) (cr : Option ℚ) (tr : Trade) :
    (applyPnl pp pu cr tr).pnl_percent = pp := by
  cases cr <;> rfl

/-- The source tag is untouched by applyPnl. -/
theorem applyPnl_source (pp pu : ℚ) (cr : Option ℚ) (tr : Trade) :
    (applyPnl pp pu cr tr).source = tr.source := by
  cases cr <;> rfl

/-- Effect of close_trade on a found non-Live trade: the realized pnl is
added to the balance, the four events are published in order (the cooldown
event carrying expiry now plus the default cooldown duration), the trade is
removed, and the in-memory cooldown store is untouched by close_trade
itself. -/
theorem close_trade_effects (st : StateManager) (symbol reason : String)
    (cp er now : ℚ) (k : String) (tr : Trade)
    (hfind : st.active_trades.find? (fun p => p.1 == symbol) = some (k, tr))
    (hsrc : tr.source ≠ Source.Live) :
    (close_trade st symbol reason cp er now).1.balance
        = st.balance + tr.pnl_usdt ∧
    (close_trade st symbol reason cp er now).2
      = [Event.addToCooldown symbol reason (now + DEFAULT_COOLDOWN_PERIOD),
         Event.tradeClosed tr reason cp er (st.balance + tr.pnl_usdt),
         Event.statsUpdated, Event.portfolioUpdated] ∧
    (close_trade st symbol reason cp er now).1.active_trades
      = st.active_trades.filter (fun p => p.1 != symbol) ∧
    (close_trade st symbol reason cp er now).1.cooldowned_coins
      = st.cooldowned_coins := by
  simp only [close_trade, hfind, Option.map_some']
  by_cases hsign : (0 : ℚ) ≤ tr.pnl_usdt
  · simp [add_alert_log, hsrc, hsign]
  · simp [add_alert_log, hsrc, hsign]

/-- Overwriting the value at one key by mapping over an association list
commutes with lookup of that key. -/
theorem find?_map_const_update {β : Type} (l : List (String × β)) (s : String)
    (c : β) :
    (l.map (fun p => if p.1 == s then (p.1, c) else p)).find?
        (fun p => p.1 == s)
      = (l.find? (fun p => p.1 == s)).map (fun p => (p.1, c)) := by
  induction l with
  | nil => rfl
  | cons a l ih =>
    simp only [List.map_cons, List.find?_cons]
    by_cases h : a.1 == s
    · simp [h]
    · have hu : (if (a.1 == s) = true then (a.1, c) else a) = a := if_neg h
      have hf : (a.1 == s) = false := by simpa using h
      rw [hu, hf]
      exact ih

/-- Lookup after the cooldown upsert returns the fresh entry. -/
theorem lookupCooldown_handle_add (st : StateManager) (s reason : String)
    (et : ℚ) :
    lookupCooldown (handle_add_to_cooldown st s reason et) s
      = some ⟨reason, et⟩ := by
  rw [lookupCooldown, handle_add_to_cooldown]
  by_cases h : (st.cooldowned_coins.find? (fun p => p.1 == s)).isSome
  · rw [if_pos h]
    obtain ⟨p0, hp0⟩ := Option.isSome_iff_exists.mp h
    simp only [find?_map_const_update, hp0, Option.map_some']
  · rw [if_neg h]
    have hnone : st.cooldowned_coins.find? (fun p => p.1 == s) = none :=
      Option.not_isSome_iff_eq_none.mp h
    simp [List.find?_append, hnone]

/-! ### Claim C6 -/

/-- Claim C6: the paper round trip.  First part: a fresh non-Live open at
entry price 100 with explicit notional A succeeds and records entry price
100, notional A and the configured leverage.  Second part: for any state
holding an active paper trade on XUSDT with entry price 100, leverage L and
notional A, one monitoring tick at current price 90 (with the pause
inactive and the 10 percent profit target reached, as it is for the
configured leverage) closes the trade with pnl_percent = 10 L and
pnl_usdt = A L (10/100), increases the balance by exactly that pnl_usdt,
publishes a cooldown-add event with expiry equal to the close time plus the
default cooldown duration, and the cooldown upsert triggered by that event
leaves XUSDT with an entry that is unexpired at the close time. -/
theorem C6_paper_round_trip (st : StateManager) (A L : ℚ) (an : Nat)
    (t0 t1 : ℚ) :
    ((st.active_trades.find? (fun p => p.1 == "XUSDT") = none →
      ¬ st.balance < A →
      (open_trade st "XUSDT" 100 (some 96) Source.Bot an none (some A)
          t0).2.1 = true ∧
      lookupTrade (open_trade st "XUSDT" 100 (some 96) Source.Bot an none
          (some A) t0).1 "XUSDT"
        = some (openedTrade 100 (some 96) A Source.Bot an t0) ∧
      (openedTrade 100 (some 96) A Source.Bot an t0).entry_price = 100 ∧
      (openedTrade 100 (some 96) A Source.Bot an t0).trade_amount = A ∧
      (openedTrade 100 (some 96) A Source.Bot an t0).leverage
        = LEVERAGE)) ∧
    (∀ st1 tr, lookupTrade st1 "XUSDT" = some tr →
      tr.entry_price = 100 → tr.leverage = L → tr.trade_amount = A →
      tr.source ≠ Source.Live →
      (lookupCoin st1 "XUSDT").map Coin.price = some 90 →
      st1.global_pause_active = false →
      (10 : ℚ) ≤ 10 * L →
      (monitor_paper_trade st1 "XUSDT" tr t1).1.balance
          = st1.balance + A * L * (10 / 100) ∧
      Event.addToCooldown "XUSDT" "Target Profit (>10%)"
          (t1 + DEFAULT_COOLDOWN_PERIOD)
        ∈ (monitor_paper_trade st1 "XUSDT" tr t1).2 ∧
      (∃ tr1, Event.tradeClosed tr1 "Target Profit (>10%)" 90
            ((lookupRsi st1 "XUSDT").getD 0)
            (st1.balance + A * L * (10 / 100))
          ∈ (monitor_paper_trade st1 "XUSDT" tr t1).2 ∧
        tr1.pnl_percent = 10 * L ∧ tr1.pnl_usdt = A * L * (10 / 100)) ∧
      lookupTrade (monitor_paper_trade st1 "XUSDT" tr t1).1 "XUSDT" = none ∧
      (∃ cd, lookupCooldown (handle_add_to_cooldown
            (monitor_paper_trade st1 "XUSDT" tr t1).1 "XUSDT"
            "Target Profit (>10%)" (t1 + DEFAULT_COOLDOWN_PERIOD)) "XUSDT"
          = some cd ∧
        cd.end_time = t1 + DEFAULT_COOLDOWN_PERIOD ∧ t1 < cd.end_time)) := by
  constructor
  · intro hnew hbal
    have hsucc : (open_trade st "XUSDT" 100 (some 96) Source.Bot an none
        (some A) t0).2.1 = true := by
      simp only [open_trade]
      rw [if_neg (by simp [hnew]), if_neg (fun h => hbal h.2)]
    have heff := open_trade_success_effects st "XUSDT" 100 (some 96)
      Source.Bot an none (some A) t0 hsucc
    refine ⟨hsucc, ?_, rfl, rfl, rfl⟩
    rw [lookupTrade, heff.1, List.find?_append, hnew]
    simp [resolveTradeAmount]
  · intro st1 tr htr hentry hlev hamt hsrc hprice hpause hTP
    obtain ⟨p0, hp0, hp0tr⟩ := Option.map_eq_some'.mp htr
    rw [lookupTrade] at htr
    have hcp0 : ¬ (90 : ℚ) = 0 := by norm_num
    have hTP2 : TAKE_PROFIT_PERCENT
        ≤ (tr.entry_price - 90) / tr.entry_price * 100 * tr.leverage := by
      rw [hentry, hlev, TAKE_PROFIT_PERCENT]
      have e1 : ((100 : ℚ) - 90) / 100 * 100 = 10 := by norm_num
      rw [e1]
      exact hTP
    have hpause2 : ¬ ((update_trade_pnl st1 "XUSDT"
        ((tr.entry_price - 90) / tr.entry_price * 100 * tr.leverage)
        (tr.trade_amount * tr.leverage *
          ((tr.entry_price - 90) / tr.entry_price * 100 / 100))
        (lookupRsi st1 "XUSDT")).global_pause_active = true) := by
      simp [update_trade_pnl, hpause]
    have hm : monitor_paper_trade st1 "XUSDT" tr t1
        = close_trade (update_trade_pnl st1 "XUSDT"
            ((tr.entry_price - 90) / tr.entry_price * 100 * tr.leverage)
            (tr.trade_amount * tr.leverage *
              ((tr.entry_price - 90) / tr.entry_price * 100 / 100))
            (lookupRsi st1 "XUSDT")) "XUSDT" "Target Profit (>10%)" 90
            ((lookupRsi st1 "XUSDT").getD 0) t1 := by
      simp only [monitor_paper_trade, hprice]
      rw [if_neg hcp0, if_neg hpause2, if_pos hTP2]
    have hfind2 : (update_trade_pnl st1 "XUSDT"
        ((tr.entry_price - 90) / tr.entry_price * 100 * tr.leverage)
        (tr.trade_amount * tr.leverage *
          ((tr.entry_price - 90) / tr.entry_price * 100 / 100))
        (lookupRsi st1 "XUSDT")).active_trades.find? (fun p => p.1 == "XUSDT")
        = some (p0.1, applyPnl
            ((tr.entry_price - 90) / tr.entry_price * 100 * tr.leverage)
            (tr.trade_amount * tr.leverage *
              ((tr.entry_price - 90) / tr.entry_price * 100 / 100))
            (lookupRsi st1 "XUSDT") tr) := by
      simp only [update_trade_pnl, find?_map_key_update, hp0,
        Option.map_some', hp0tr]
    have hsrc2 : (applyPnl
        ((tr.entry_price - 90) / tr.entry_price * 100 * tr.leverage)
        (tr.trade_amount * tr.leverage *
          ((tr.entry_price - 90) / tr.entry_price * 100 / 100))
        (lookupRsi st1 "XUSDT") tr).source ≠ Source.Live := by
      rw [applyPnl_source]
      exact hsrc
    have hclose := close_trade_effects _ "XUSDT" "Target Profit (>10%)" 90
      ((lookupRsi st1 "XUSDT").getD 0) t1 p0.1 _ hfind2 hsrc2
    have hpu : (applyPnl
        ((tr.entry_price - 90) / tr.entry_price * 100 * tr.leverage)
        (tr.trade_amount * tr.leverage *
          ((tr.entry_price - 90) / tr.entry_price * 100 / 100))
        (lookupRsi st1 "XUSDT") tr).pnl_usdt = A * L * (10 / 100) := by
      rw [applyPnl_pnl_usdt, hamt, hlev, hentry]
      norm_num
    have hpp : (applyPnl
        ((tr.entry_price - 90) / tr.entry_price * 100 * tr.leverage)
        (tr.trade_amount * tr.leverage *
          ((tr.entry_price - 90) / tr.entry_price * 100 / 100))
        (lookupRsi st1 "XUSDT") tr).pnl_percent = 10 * L := by
      rw [applyPnl_pnl_percent, hlev, hentry]
      norm_num
    have hubal : (update_trade_pnl st1 "XUSDT"
        ((tr.entry_price - 90) / tr.entry_price * 100 * tr.leverage)
        (tr.trade_amount * tr.leverage *
          ((tr.entry_price - 90) / tr.entry_price * 100 / 100))
        (lookupRsi st1 "XUSDT")).balance = st1.balance := rfl
    refine ⟨?_, ?_, ?_, ?_, ?_⟩
    · rw [hm, hclose.1, hubal, hpu]
    · rw [hm, hclose.2.1]
      simp
    · refine ⟨applyPnl
        ((tr.entry_price - 90) / tr.entry_price * 100 * tr.leverage)
        (tr.trade_amount * tr.leverage *
          ((tr.entry_price - 90) / tr.entry_price * 100 / 100))
        (lookupRsi st1 "XUSDT") tr, ?_, hpp, hpu⟩
      rw [hm, hclose.2.1, hubal, hpu]
      simp
    · rw [hm, lookupTrade, hclose.2.2.1]
      simp only [update_trade_pnl]
      rw [find?_filter_ne_none]
      rfl
    · exact ⟨⟨"Target Profit (>10%)", t1 + DEFAULT_COOLDOWN_PERIOD⟩,
        lookupCooldown_handle_add _ _ _ _, rfl,
        by rw [DEFAULT_COOLDOWN_PERIOD]; norm_num⟩

/-- Concrete pre-open state for the C6 witness: XUSDT quoted at 90. -/
def roundTripState : StateManager :=
  { baseState with coin_data := [⟨"XUSDT", 90, 50⟩] }

/-- Witness for C6 at a concrete chain: open XUSDT at 100 with notional 3,
tick at 90, and check that the balance realized the pnl of the closed
trade. -/
theorem C6_paper_round_trip_witness :
    (open_trade roundTripState "XUSDT" 100 (some 96) Source.Bot 1 none
        (some 3) 0).2.1 = true ∧
    (monitor_paper_trade (open_trade roundTripState "XUSDT" 100 (some 96)
        Source.Bot 1 none (some 3) 0).1 "XUSDT"
        (openedTrade 100 (some 96) 3 Source.Bot 1 0) 60).1.balance
      = (open_trade roundTripState "XUSDT" 100 (some 96) Source.Bot 1 none
          (some 3) 0).1.balance + 3 * LEVERAGE * (10 / 100) := by
  have hA := (C6_paper_round_trip roundTripState 3 LEVERAGE 1 0 60).1
    (by decide) (by norm_num [roundTripState, baseState])
  have hB := (C6_paper_round_trip roundTripState 3 LEVERAGE 1 0 60).2
    (open_trade roundTripState "XUSDT" 100 (some 96) Source.Bot 1 none
      (some 3) 0).1
    (openedTrade 100 (some 96) 3 Source.Bot 1 0)
    hA.2.1 rfl rfl rfl (by decide) (by decide) (by decide)
    (by rw [LEVERAGE]; norm_num)
  exact ⟨hA.1, hB.1⟩

/-! ### Helper lemmas for the watch-list claim -/

/-- In a coin list with pairwise distinct symbols, lookup by the symbol of
a member returns exactly that member. -/
theorem find?_symbol_of_nodup (l : List Coin)
    (hnodup : (l.map Coin.symbol).Nodup) (c : Coin) (hc : c ∈ l) :
    l.find? (fun x => x.symbol == c.symbol) = some c := by
  induction l with
  | nil => cases hc
  | cons a l ih =>
    rw [List.find?_cons]
    have hmap : (List.map Coin.symbol (a :: l)).Nodup := hnodup
    rw [List.map_cons] at hmap
    have hnd := List.nodup_cons.mp hmap
    by_cases ha : a.symbol == c.symbol
    · have hae : a.symbol = c.symbol := by simpa using ha
      rcases List.mem_cons.mp hc with rfl | hcl
      · rw [ha]
      · exfalso
        have hmem : c.symbol ∈ l.map Coin.symbol := List.mem_map_of_mem _ hcl
        rw [← hae] at hmem
        exact hnd.1 hmem
    · have hf : (a.symbol == c.symbol) = false := by simpa using ha
      rw [hf]
      rcases List.mem_cons.mp hc with rfl | hcl
      · simp at ha
      · exact ih hnd.2 hcl

/-- Total order instance for the descending coin comparison. -/
instance : IsTotal Coin coinDesc :=
  ⟨fun a b => le_total b.change_24h a.change_24h⟩

/-- Transitivity instance for the descending coin comparison. -/
instance : IsTrans Coin coinDesc :=
  ⟨fun _ _ _ hab hbc => le_trans hbc hab⟩

/-! ### Claim C5 -/

/-- One hundred and fifty coins that all tie at a 24h change of 50, far
above the base threshold of 10. -/
def manyCoins : List Coin :=
  (List.range 150).map (fun i => ⟨"C" ++ toString i, 1, 50⟩)

/-- Concrete state holding the 150 tied coins and nothing else. -/
def tiedRallyState : StateManager := { baseState with coin_data := manyCoins }

set_option maxRecDepth 100000 in
/-- Counterexample to claim C5 as stated: with 150 coins tied at the same
change value the dynamic threshold filter keeps every one of them, so the
returned watch list holds 150 symbols and is not capped at 100. -/
theorem C5_counterexample :
    tiedRallyState.coin_data.length = 150 ∧
    (∀ c ∈ tiedRallyState.coin_data,
      RSI_HOT_COIN_THRESHOLD ≤ c.change_24h) ∧
    tiedRallyState.active_trades = [] ∧
    tiedRallyState.cooldowned_coins = [] ∧
    MAX_COINS_TO_MONITOR < (get_symbols_to_monitor tiedRallyState).length := by
  refine ⟨rfl, by decide, rfl, rfl, by decide⟩

/-- Claim C5 (amended): for every coin-data map of 150 coins with pairwise
distinct symbols, all at or above the base threshold, and no trades or
cooldowns, get_symbols_to_monitor raises the effective threshold to the
change value of the coin ranked MAX_COINS_TO_MONITOR and returns every
symbol whose change is at or above that raised threshold: at least 100
symbols (exactly 100 only when the change values at the boundary are
distinct, and more on ties, so the hot set is not capped at 100), each at
or above the raised threshold, with the raised threshold attained as the
lowest change value, sorted by 24h change descending. -/
theorem C5_dynamic_threshold (st : StateManager)
    (hlen : st.coin_data.length = 150)
    (hall : ∀ c ∈ st.coin_data, RSI_HOT_COIN_THRESHOLD ≤ c.change_24h)
    (hnodup : (st.coin_data.map Coin.symbol).Nodup)
    (hactive : st.active_trades = [])
    (hcool : st.cooldowned_coins = []) :
    (∃ c100, (hotCoinsAboveBase st)[MAX_COINS_TO_MONITOR - 1]? = some c100 ∧
      dynamicThreshold st = c100.change_24h ∧
      RSI_HOT_COIN_THRESHOLD ≤ dynamicThreshold st) ∧
    MAX_COINS_TO_MONITOR ≤ (get_symbols_to_monitor st).length ∧
    (∀ s ∈ get_symbols_to_monitor st,
      dynamicThreshold st ≤ changeOfSymbol st s) ∧
    (∀ c ∈ st.coin_data, dynamicThreshold st ≤ c.change_24h →
      c.symbol ∈ get_symbols_to_monitor st) ∧
    (∃ s ∈ get_symbols_to_monitor st,
      changeOfSymbol st s = dynamicThreshold st) ∧
    (get_symbols_to_monitor st).Sorted (symDesc st) := by
  have hhot : hotCoinsAboveBase st = sortedCoins st := by
    rw [hotCoinsAboveBase]
    apply List.filter_eq_self.mpr
    intro c hc
    rw [sortedCoins] at hc
    exact decide_eq_true (hall c
      ((List.perm_insertionSort coinDesc st.coin_data).mem_iff.mp hc))
  have hslen : (sortedCoins st).length = 150 := by
    rw [sortedCoins, List.length_insertionSort, hlen]
  have hhlen : (hotCoinsAboveBase st).length = 150 := by rw [hhot, hslen]
  have hM : MAX_COINS_TO_MONITOR = 100 := rfl
  have h100 : MAX_COINS_TO_MONITOR < (hotCoinsAboveBase st).length := by
    rw [hhlen]; omega
  have h99 : MAX_COINS_TO_MONITOR - 1 < (hotCoinsAboveBase st).length := by
    rw [hhlen]; omega
  have hsorted : (hotCoinsAboveBase st).Sorted coinDesc := by
    rw [hhot, sortedCoins]
    exact List.sorted_insertionSort coinDesc st.coin_data
  have hq : (hotCoinsAboveBase st)[MAX_COINS_TO_MONITOR - 1]?
      = some ((hotCoinsAboveBase st).get ⟨MAX_COINS_TO_MONITOR - 1, h99⟩) := by
    rw [List.getElem?_eq_getElem h99]
    simp
  have hdyn : dynamicThreshold st
      = ((hotCoinsAboveBase st).get
          ⟨MAX_COINS_TO_MONITOR - 1, h99⟩).change_24h := by
    rw [dynamicThreshold, if_pos h100, hq]
    rfl
  have hc100mem : (hotCoinsAboveBase st).get ⟨MAX_COINS_TO_MONITOR - 1, h99⟩
      ∈ hotCoinsAboveBase st := List.get_mem _ _ _
  have hmemcoin : ∀ c ∈ hotCoinsAboveBase st, c ∈ st.coin_data := by
    intro c hc
    rw [hotCoinsAboveBase, sortedCoins] at hc
    exact (List.perm_insertionSort coinDesc st.coin_data).mem_iff.mp
      ((List.filter_sublist _).subset hc)
  have hchange : ∀ c ∈ st.coin_data,
      changeOfSymbol st c.symbol = c.change_24h := by
    intro c hc
    rw [changeOfSymbol, lookupCoin, find?_symbol_of_nodup st.coin_data hnodup c hc]
    rfl
  have hout : ∀ s, s ∈ get_symbols_to_monitor st ↔ s ∈ finalHotSymbols st := by
    intro s
    rw [get_symbols_to_monitor, hactive, hcool]
    constructor
    · intro hs
      have hmem := (List.perm_insertionSort (symDesc st) _).mem_iff.mp hs
      simpa [List.mem_dedup] using hmem
    · intro hs
      apply (List.perm_insertionSort (symDesc st) _).mem_iff.mpr
      simpa [List.mem_dedup] using hs
  have hge : ∀ s ∈ get_symbols_to_monitor st,
      dynamicThreshold st ≤ changeOfSymbol st s := by
    intro s hs
    have hfh := (hout s).mp hs
    rw [finalHotSymbols] at hfh
    obtain ⟨c, hcf, rfl⟩ := List.mem_map.mp hfh
    have hp := List.of_mem_filter hcf
    have hc_cd : c ∈ st.coin_data :=
      hmemcoin c ((List.filter_sublist _).subset hcf)
    rw [hchange c hc_cd]
    exact of_decide_eq_true hp
  have hcomplete : ∀ c ∈ st.coin_data, dynamicThreshold st ≤ c.change_24h →
      c.symbol ∈ get_symbols_to_monitor st := by
    intro c hc hdc
    apply (hout _).mpr
    rw [finalHotSymbols]
    apply List.mem_map_of_mem
    apply List.mem_filter.mpr
    refine ⟨?_, decide_eq_true hdc⟩
    rw [hotCoinsAboveBase]
    apply List.mem_filter.mpr
    refine ⟨?_, decide_eq_true (hall c hc)⟩
    rw [sortedCoins]
    exact (List.perm_insertionSort coinDesc st.coin_data).mem_iff.mpr hc
  have hc100final : ((hotCoinsAboveBase st).get
      ⟨MAX_COINS_TO_MONITOR - 1, h99⟩).symbol ∈ finalHotSymbols st := by
    rw [finalHotSymbols]
    apply List.mem_map_of_mem
    apply List.mem_filter.mpr
    refine ⟨hc100mem, ?_⟩
    rw [hdyn]
    exact decide_eq_true le_rfl
  have hattain : ∃ s ∈ get_symbols_to_monitor st,
      changeOfSymbol st s = dynamicThreshold st := by
    refine ⟨_, (hout _).mpr hc100final, ?_⟩
    rw [hchange _ (hmemcoin _ hc100mem), hdyn]
  have htake : ∀ x ∈ (hotCoinsAboveBase st).take MAX_COINS_TO_MONITOR,
      (fun c => decide (dynamicThreshold st ≤ c.change_24h)) x = true := by
    intro x hx
    obtain ⟨i, hi, hxi⟩ := List.getElem_of_mem hx
    have hi2 : i < MAX_COINS_TO_MONITOR := by
      rw [List.length_take] at hi
      omega
    have hilen : i < (hotCoinsAboveBase st).length := by
      rw [hhlen]; omega
    have hxeq : x = (hotCoinsAboveBase st).get ⟨i, hilen⟩ := by
      rw [← hxi, List.getElem_take]
      simp
    rw [hxeq, hdyn]
    apply decide_eq_true
    rcases Nat.lt_or_ge i (MAX_COINS_TO_MONITOR - 1) with hlt | hge2
    · exact hsorted.rel_get_of_lt (Fin.mk_lt_mk.mpr hlt)
    · have hieq : i = MAX_COINS_TO_MONITOR - 1 := by omega
      subst hieq
      exact le_rfl
  have hfl : MAX_COINS_TO_MONITOR ≤ ((hotCoinsAboveBase st).filter
      (fun c => decide (dynamicThreshold st ≤ c.change_24h))).length := by
    have h1 : ((hotCoinsAboveBase st).take MAX_COINS_TO_MONITOR).filter
        (fun c => decide (dynamicThreshold st ≤ c.change_24h))
        = (hotCoinsAboveBase st).take MAX_COINS_TO_MONITOR :=
      List.filter_eq_self.mpr htake
    have h2 := ((List.take_sublist MAX_COINS_TO_MONITOR
      (hotCoinsAboveBase st)).filter
        (fun c => decide (dynamicThreshold st ≤ c.change_24h))).length_le
    rw [h1, List.length_take, hhlen] at h2
    omega
  have hndfh : (finalHotSymbols st).Nodup := by
    rw [finalHotSymbols]
    have hsubl : (hotCoinsAboveBase st).filter
        (fun c => decide (dynamicThreshold st ≤ c.change_24h))
        <+ List.insertionSort coinDesc st.coin_data := by
      rw [hotCoinsAboveBase, sortedCoins]
      exact (List.filter_sublist _).trans (List.filter_sublist _)
    have hndsorted : ((List.insertionSort coinDesc st.coin_data).map
        Coin.symbol).Nodup :=
      ((List.perm_insertionSort coinDesc st.coin_data).map
        Coin.symbol).nodup_iff.mpr hnodup
    exact (hsubl.map Coin.symbol).nodup hndsorted
  have hlenout : MAX_COINS_TO_MONITOR ≤ (get_symbols_to_monitor st).length := by
    rw [get_symbols_to_monitor, hactive, hcool]
    rw [List.length_insertionSort]
    simp only [List.map_nil, List.nil_append]
    rw [List.dedup_eq_self.mpr hndfh, finalHotSymbols, List.length_map]
    exact hfl
  have hsort_out : (get_symbols_to_monitor st).Sorted (symDesc st) := by
    rw [get_symbols_to_monitor]
    haveI : IsTotal String (symDesc st) := ⟨fun a b => le_total _ _⟩
    haveI : IsTrans String (symDesc st) :=
      ⟨fun _ _ _ hab hbc => le_trans hbc hab⟩
    exact List.sorted_insertionSort (symDesc st) _
  refine ⟨⟨(hotCoinsAboveBase st).get ⟨MAX_COINS_TO_MONITOR - 1, h99⟩,
    hq, hdyn, ?_⟩, hlenout, hge, hcomplete, hattain, hsort_out⟩
  rw [hdyn]
  exact hall _ (hmemcoin _ hc100mem)

set_option maxRecDepth 100000 in
/-- Witness for C5 (amended) at the concrete 150-coin state. -/
theorem C5_dynamic_threshold_witness :
    MAX_COINS_TO_MONITOR ≤ (get_symbols_to_monitor tiedRallyState).length :=
  (C5_dynamic_threshold tiedRallyState rfl (by decide) (by decide) rfl
    rfl).2.1

end RsiBot
